import Mathlib

/-!
Verification of the OpenOCD `dmem` DAP-direct adapter driver
(`src/jtag/drivers/dmem.c`) against its design specification.

The development shallowly embeds the three core components of the driver:
the APB/tile address translator (`ap_addr_2_tile`), the CoreSight
control-word protocol engine (`coresight_read` / `coresight_write` with
their polling loop), and the DP/AP register shadow state machine
(`dmem_dp_q_read`, `dmem_dp_q_write`, `dmem_ap_q_read`, `dmem_ap_q_write`,
`dmem_dp_run`).

Machine integers are modelled as `Nat` with explicit `% 2 ^ 32` (written
`% 0x100000000`) wherever 32-bit wrap-around can occur in the C source.
Status codes are `Int` (C `int`).  The dmem channel is modelled by a
`Channel` record: a connected flag (whether the `dmem_read` / `dmem_write`
function pointers are wired up), a list of pending results for successive
`dmem_read` calls on the CoreSight control register (the simulated device),
and a log of the 64-bit control words issued via `dmem_write`.  The polling
loop of the protocol engine may diverge if the device never clears `go`, so
operations that reach the channel return `Option` results, with `none`
standing for divergence.
-/

namespace Dmem

/-! ### Constants from dmem.c (lines 35-60) -/

def RSH_CS_ROM_BASE : Nat := 0x80000000

def RSH_CS_TILE_BASE : Nat := 0x44000000

def RSH_CS_TILE_SIZE : Nat := 0x04000000

def APB_AP_IDR : Nat := 0x44770002

def RSH_CORESIGHT_CTL_GO_SHIFT : Nat := 0

def RSH_CORESIGHT_CTL_GO_MASK : Nat := 0x1

def RSH_CORESIGHT_CTL_ACTION_SHIFT : Nat := 1

def RSH_CORESIGHT_CTL_ACTION_MASK : Nat := 0x2

def RSH_CORESIGHT_CTL_ADDR_SHIFT : Nat := 2

def RSH_CORESIGHT_CTL_ADDR_MASK : Nat := 0x7ffffffc

def RSH_CORESIGHT_CTL_ERR_SHIFT : Nat := 31

def RSH_CORESIGHT_CTL_ERR_MASK : Nat := 0x80000000

def RSH_CORESIGHT_CTL_DATA_SHIFT : Nat := 32

def RSH_CORESIGHT_CTL_DATA_MASK : Nat := 0xffffffff00000000

/-! ### Status codes and ADIv5 register numbers

These come from OpenOCD headers (`helper/log.h`, `target/arm_adi_v5.h`)
and `<errno.h>`, which are outside the embedded source file. -/

/-- Modelled from the spec: OpenOCD success status `ERROR_OK` from
`helper/log.h` (not under src/). -/
def ERROR_OK : Int := 0

/-- Modelled from the spec: OpenOCD generic failure status `ERROR_FAIL`
from `helper/log.h` (not under src/). -/
def ERROR_FAIL : Int := -4

/-- Modelled from the spec: POSIX `EINVAL` errno value, the
invalid-argument condition reported for an AP write with an unknown
register number (errno.h, not under src/). -/
def EINVAL : Int := 22

/-- Modelled from the spec: ADIv5 well-known MEM-AP CSW register number
(`target/arm_adi_v5.h`, not under src/). -/
def ADIV5_MEM_AP_REG_CSW : Nat := 0x00

/-- Modelled from the spec: ADIv5 well-known MEM-AP TAR register number. -/
def ADIV5_MEM_AP_REG_TAR : Nat := 0x04

/-- Modelled from the spec: ADIv5 well-known MEM-AP DRW register number. -/
def ADIV5_MEM_AP_REG_DRW : Nat := 0x0C

/-- Modelled from the spec: ADIv5 well-known MEM-AP BD0 register number. -/
def ADIV5_MEM_AP_REG_BD0 : Nat := 0x10

/-- Modelled from the spec: ADIv5 well-known MEM-AP BD1 register number. -/
def ADIV5_MEM_AP_REG_BD1 : Nat := 0x14

/-- Modelled from the spec: ADIv5 well-known MEM-AP BD2 register number. -/
def ADIV5_MEM_AP_REG_BD2 : Nat := 0x18

/-- Modelled from the spec: ADIv5 well-known MEM-AP BD3 register number. -/
def ADIV5_MEM_AP_REG_BD3 : Nat := 0x1C

/-- Modelled from the spec: ADIv5 well-known MEM-AP CFG register number. -/
def ADIV5_MEM_AP_REG_CFG : Nat := 0xF4

/-- Modelled from the spec: ADIv5 well-known MEM-AP BASE register number. -/
def ADIV5_MEM_AP_REG_BASE : Nat := 0xF8

/-- Modelled from the spec: ADIv5 well-known AP IDR register number. -/
def ADIV5_AP_REG_IDR : Nat := 0xFC

/-- Modelled from the spec: ADIv5 DPIDR register number. -/
def DP_DPIDR : Nat := 0x0

/-- Modelled from the spec: ADIv5 DP CTRL/STAT register number. -/
def DP_CTRL_STAT : Nat := 0x4

/-- Modelled from the spec: ADIv5 DP SELECT register number. -/
def DP_SELECT : Nat := 0x8

/-- Modelled from the spec: mask of the APSEL field (bits 31:24) of DP
SELECT. -/
def DP_SELECT_APSEL : Nat := 0xff000000

/-- Modelled from the spec: mask of the APBANKSEL field (bits 7:4) of DP
SELECT. -/
def DP_SELECT_APBANK : Nat := 0x000000f0

/-- Modelled from the spec: CSW auto-increment-enable bits (bits 5:4). -/
def CSW_ADDRINC_MASK : Nat := 0x30

/-- Modelled from the spec: CTRL/STAT debug power-up acknowledge bit. -/
def CDBGPWRUPACK : Nat := 0x20000000

/-- Modelled from the spec: CTRL/STAT system power-up acknowledge bit. -/
def CSYSPWRUPACK : Nat := 0x80000000

/-! ### Address translator (dmem.c lines 152-163) -/

/-- Translation of `ap_addr_2_tile`.  The C function mutates a `uint32_t`
address in place and stores the tile index through an out pointer; here it
returns the `(tile, addr)` pair.  The initial `*addr -= RSH_CS_ROM_BASE`
is 32-bit wrapping subtraction, rendered as `(addr + 2^32 - base) % 2^32`. -/
def ap_addr_2_tile (addr : Nat) : Nat × Nat :=
  if (addr + 0x100000000 - RSH_CS_ROM_BASE) % 0x100000000 < RSH_CS_TILE_BASE then
    (0, (addr + 0x100000000 - RSH_CS_ROM_BASE) % 0x100000000)
  else
    (((addr + 0x100000000 - RSH_CS_ROM_BASE) % 0x100000000 - RSH_CS_TILE_BASE) /
        RSH_CS_TILE_SIZE + 1,
     ((addr + 0x100000000 - RSH_CS_ROM_BASE) % 0x100000000 - RSH_CS_TILE_BASE) %
        RSH_CS_TILE_SIZE)

/-- Modelled from the spec: the flat-address reconstruction formula of
testable property §8 — `ROM base + offset` when `tile = 0`, and
`ROM base + tile base + (tile - 1) * tile size + offset` when `tile > 0`.
This is the spec-side definition of the round-trip claim, to be compared
with the source-side `ap_addr_2_tile`. -/
def tile_reconstruct (tile offset : Nat) : Nat :=
  if tile = 0 then RSH_CS_ROM_BASE + offset
  else RSH_CS_ROM_BASE + RSH_CS_TILE_BASE + (tile - 1) * RSH_CS_TILE_SIZE + offset

/-- Claim C1: for every flat address at or above the ROM base (within 32
bits), translating with `ap_addr_2_tile` and reconstructing the flat
address from the resulting (tile, offset) pair yields the original
address. -/
theorem C1_addr_roundtrip (addr : Nat) (h1 : RSH_CS_ROM_BASE ≤ addr)
    (h2 : addr < 0x100000000) :
    tile_reconstruct (ap_addr_2_tile addr).1 (ap_addr_2_tile addr).2 = addr := by
  unfold tile_reconstruct ap_addr_2_tile
  unfold RSH_CS_ROM_BASE RSH_CS_TILE_BASE RSH_CS_TILE_SIZE at *
  split_ifs <;> simp_all <;> omega

/-- Witness for C1: the round trip at the concrete flat address
0xC4100000 (which lands in tile 1). -/
theorem C1_addr_roundtrip_witness :
    tile_reconstruct (ap_addr_2_tile 0xC4100000).1 (ap_addr_2_tile 0xC4100000).2 =
      0xC4100000 :=
  C1_addr_roundtrip 0xC4100000 (by decide) (by decide)

/-- Counterexample to claim C2: the spec example says flat address
0x84000100 maps to tile 0 with offset 0x00000100 and 0x88100000 maps to
tile 1 with offset 0x00100000; the source translator instead yields
offset 0x04000100 (= 0x84000100 - 0x80000000, which is below the tile
window base 0x44000000) for the first and tile 0, offset 0x08100000 for
the second. -/
theorem C2_counterexample :
    ap_addr_2_tile 0x84000100 ≠ (0, 0x00000100) ∧
      ap_addr_2_tile 0x88100000 ≠ (1, 0x00100000) := by
  decide

/-- Claim C2 (amended): with ROM base 0x80000000, tile base 0x44000000
and tile size 0x04000000, the translator maps flat address 0x84000100 to
tile 0 with offset 0x04000100, and flat address 0x88100000 to tile 0 with
offset 0x08100000. -/
theorem C2_amended_examples :
    ap_addr_2_tile 0x84000100 = (0, 0x04000100) ∧
      ap_addr_2_tile 0x88100000 = (0, 0x08100000) := by
  decide

/-! ### The dmem channel

`dmem_read` / `dmem_write` (dmem.c lines 94-95) are function pointers that
are either unset (NULL, before `dmem_connect`) or wired to the device.
The protocol engine only ever reads and writes the single CoreSight
control register, and it ignores the return value of `dmem_write`
(dmem.c lines 190 and 223), so the channel is modelled as: a connected
flag, the list of results that successive `dmem_read` calls will produce
(each a status `rc` together with the 64-bit value stored through the out
pointer), and a log of the control words issued via `dmem_write` (most
recent first). -/
structure Channel where
  connected : Bool
  reads : List (Int × Nat)
  writes : List Nat
  deriving DecidableEq

/-- The process-wide DP/AP shadow registers and the sticky error code
(dmem.c lines 86-91 and 103). -/
structure DmemState where
  dp_ctrl_stat : Nat
  dp_id_code : Nat
  ap_sel : Nat
  ap_bank : Nat
  ap_csw : Nat
  ap_drw : Nat
  ap_tar : Nat
  ap_tar_inc : Nat
  dmem_dap_retval : Int
  deriving DecidableEq

/-! ### CoreSight control-word protocol engine (dmem.c lines 165-236) -/

/-- `RSH_CS_GET_FIELD`: mask the register, then shift right. -/
def rsh_cs_get (mask shift reg : Nat) : Nat := (reg &&& mask) >>> shift

/-- `RSH_CS_SET_FIELD` on the 64-bit control register: clear the mask bits
of `reg`, then or in the shifted value truncated by the mask.  The C
complement `~MASK` on `uint64_t` is rendered as xor with `2^64 - 1`. -/
def rsh_cs_set (mask shift reg value : Nat) : Nat :=
  (reg &&& (0xFFFFFFFFFFFFFFFF ^^^ mask)) ||| ((value <<< shift) &&& mask)

/-- The GO field of a control word. -/
def cs_get_go (ctl : Nat) : Nat :=
  rsh_cs_get RSH_CORESIGHT_CTL_GO_MASK RSH_CORESIGHT_CTL_GO_SHIFT ctl

/-- The DATA field of a control word. -/
def cs_get_data (ctl : Nat) : Nat :=
  rsh_cs_get RSH_CORESIGHT_CTL_DATA_MASK RSH_CORESIGHT_CTL_DATA_SHIFT ctl

/-- The encoded ADDR field value (dmem.c lines 182-184 / 216-218):
`addr = (addr >> 2) | (tile << 24); if (tile) addr |= (1 << 28);` on
`uint32_t` operands, so the tile shift wraps modulo 2^32. -/
def cs_encode_addr (tile addr : Nat) : Nat :=
  if tile ≠ 0 then ((addr >>> 2) ||| ((tile <<< 24) % 0x100000000)) ||| (1 <<< 28)
  else (addr >>> 2) ||| ((tile <<< 24) % 0x100000000)

/-- The control word issued by `coresight_write`: starting from 0, set
ADDR, then ACTION = 0 (write), then DATA = wdata, then GO = 1. -/
def cs_write_ctl (tile addr wdata : Nat) : Nat :=
  rsh_cs_set RSH_CORESIGHT_CTL_GO_MASK RSH_CORESIGHT_CTL_GO_SHIFT
    (rsh_cs_set RSH_CORESIGHT_CTL_DATA_MASK RSH_CORESIGHT_CTL_DATA_SHIFT
      (rsh_cs_set RSH_CORESIGHT_CTL_ACTION_MASK RSH_CORESIGHT_CTL_ACTION_SHIFT
        (rsh_cs_set RSH_CORESIGHT_CTL_ADDR_MASK RSH_CORESIGHT_CTL_ADDR_SHIFT 0
          (cs_encode_addr tile addr))
        0)
      wdata)
    1

/-- The control word issued by `coresight_read`: starting from 0, set
ADDR, then ACTION = 1 (read), then GO = 1. -/
def cs_read_ctl (tile addr : Nat) : Nat :=
  rsh_cs_set RSH_CORESIGHT_CTL_GO_MASK RSH_CORESIGHT_CTL_GO_SHIFT
    (rsh_cs_set RSH_CORESIGHT_CTL_ACTION_MASK RSH_CORESIGHT_CTL_ACTION_SHIFT
      (rsh_cs_set RSH_CORESIGHT_CTL_ADDR_MASK RSH_CORESIGHT_CTL_ADDR_SHIFT 0
        (cs_encode_addr tile addr))
      1)
    1

/-- The polling do-while loop shared by `coresight_write` and
`coresight_read` (dmem.c lines 192-199 / 225-232): read the control
register; if the read fails (`rc < 0`) exit with that status immediately;
otherwise loop while the GO field is still set.  Returns the loop outcome
(failure status, or the final control word with GO clear) together with
the channel read results not yet consumed; `none` means the read-result
list was exhausted with GO still set, i.e. the C loop would keep spinning. -/
def cs_poll : List (Int × Nat) → Option (Except Int Nat × List (Int × Nat))
  | [] => none
  | (rc, ctl) :: rest =>
    if rc < 0 then some (Except.error rc, rest)
    else if cs_get_go ctl ≠ 0 then cs_poll rest
    else some (Except.ok ctl, rest)

/-- `coresight_write` (dmem.c lines 170-202): fail with `ERROR_FAIL` if
the channel function pointers are not wired up; otherwise compose the
control word, issue it via `dmem_write` (return value ignored, as in the
source), and poll until GO clears or a read fails. -/
def coresight_write (tile addr wdata : Nat) (ch : Channel) :
    Option (Int × Channel) :=
  if ch.connected = false then some (ERROR_FAIL, ch)
  else
    match cs_poll ch.reads with
    | none => none
    | some (Except.error rc, rest) =>
        some (rc, { ch with writes := cs_write_ctl tile addr wdata :: ch.writes,
                            reads := rest })
    | some (Except.ok _, rest) =>
        some (ERROR_OK, { ch with writes := cs_write_ctl tile addr wdata :: ch.writes,
                                  reads := rest })

/-- `coresight_read` (dmem.c lines 204-236): like `coresight_write` but
with ACTION = 1, and on completion the DATA field of the final control
word is stored through the out pointer (modelled as `some data`; `none`
means the pointer was not written, which happens on every failure path). -/
def coresight_read (tile addr : Nat) (ch : Channel) :
    Option (Int × Option Nat × Channel) :=
  if ch.connected = false then some (ERROR_FAIL, none, ch)
  else
    match cs_poll ch.reads with
    | none => none
    | some (Except.error rc, rest) =>
        some (rc, none, { ch with writes := cs_read_ctl tile addr :: ch.writes,
                                  reads := rest })
    | some (Except.ok ctl, rest) =>
        some (ERROR_OK, some (cs_get_data ctl),
          { ch with writes := cs_read_ctl tile addr :: ch.writes, reads := rest })

/-! ### DP/AP register shadow state machine (dmem.c lines 238-415) -/

/-- The flat address targeted by a DRW access (dmem.c lines 323 and 383):
`(ap_tar & ~0x3) + ap_tar_inc` on `uint32_t`, hence modulo 2^32. -/
def drw_target (st : DmemState) : Nat :=
  ((st.ap_tar &&& 0xFFFFFFFC) + st.ap_tar_inc) % 0x100000000

/-- The flat address targeted by a BD0-BD3 access (dmem.c lines 317 and
376): `(ap_tar & ~0xf) + (reg & 0x0C)`.  The sum cannot exceed 2^32, so no
wrap-around is possible here. -/
def bd_addr (st : DmemState) (reg : Nat) : Nat :=
  (st.ap_tar &&& 0xFFFFFFF0) + (reg &&& 0x0C)

/-- The last-error tracking done at the end of `dmem_ap_q_read` and
`dmem_ap_q_write` (dmem.c lines 336-338 and 395-397): a non-`ERROR_OK`
status is latched into `dmem_dap_retval`. -/
def ap_track (st : DmemState) (rc : Int) : DmemState :=
  if rc ≠ ERROR_OK then { st with dmem_dap_retval := rc } else st

/-- The TAR auto-increment update after a DRW access (dmem.c lines 326-327
and 386-387): `if (!rc && (ap_csw & CSW_ADDRINC_MASK)) ap_tar_inc +=
(ap_csw & 0x03) * 2;` with 32-bit wrapping addition. -/
def drw_inc_update (st : DmemState) (rc : Int) : DmemState :=
  if rc = ERROR_OK ∧ st.ap_csw &&& CSW_ADDRINC_MASK ≠ 0 then
    { st with ap_tar_inc :=
        (st.ap_tar_inc + (st.ap_csw &&& 0x03) * 2) % 0x100000000 }
  else st

/-- `dmem_dp_q_read` (dmem.c lines 238-258).  `dataNull` models a NULL
`data` out pointer; the returned `Option Nat` is the value stored through
the pointer (`none` when nothing is stored). -/
def dmem_dp_q_read (dataNull : Bool) (reg : Nat) (st : DmemState) :
    Int × Option Nat × DmemState :=
  if dataNull then (ERROR_OK, none, st)
  else if reg = DP_DPIDR then (ERROR_OK, some st.dp_id_code, st)
  else if reg = DP_CTRL_STAT then (ERROR_OK, some (CDBGPWRUPACK ||| CSYSPWRUPACK), st)
  else (ERROR_OK, none, st)

/-- `dmem_dp_q_write` (dmem.c lines 260-277): CTRL/STAT is stored
verbatim; SELECT is decomposed into `ap_sel` (bits 31:24) and `ap_bank`
(bits 7:4); unknown registers are logged and ignored. -/
def dmem_dp_q_write (reg data : Nat) (st : DmemState) : Int × DmemState :=
  if reg = DP_CTRL_STAT then (ERROR_OK, { st with dp_ctrl_stat := data })
  else if reg = DP_SELECT then
    (ERROR_OK, { st with ap_sel := (data &&& DP_SELECT_APSEL) >>> 24,
                         ap_bank := (data &&& DP_SELECT_APBANK) >>> 4 })
  else (ERROR_OK, st)

/-- `dmem_ap_q_read` (dmem.c lines 279-341).  `adiv6` models
`is_adiv6(ap->dap)`; `ap_num` is `ap->ap_num`.  The result is the returned
status, the value stored through the `data` out pointer (`none` when the
pointer is not written), the new shadow state and the new channel; `none`
for the whole result means the protocol engine's polling loop diverged. -/
def dmem_ap_q_read (adiv6 : Bool) (ap_num reg : Nat) (st : DmemState)
    (ch : Channel) : Option (Int × Option Nat × DmemState × Channel) :=
  if adiv6 then some (ERROR_FAIL, none, st, ch)
  else if reg = ADIV5_MEM_AP_REG_CSW then some (ERROR_OK, some st.ap_csw, st, ch)
  else if reg = ADIV5_MEM_AP_REG_CFG then some (ERROR_OK, some 0, st, ch)
  else if reg = ADIV5_MEM_AP_REG_BASE then
    some (ERROR_OK, some RSH_CS_ROM_BASE, st, ch)
  else if reg = ADIV5_AP_REG_IDR then
    some (ERROR_OK, some (if ap_num = 0 then APB_AP_IDR else 0), st, ch)
  else if reg = ADIV5_MEM_AP_REG_BD0 ∨ reg = ADIV5_MEM_AP_REG_BD1 ∨
      reg = ADIV5_MEM_AP_REG_BD2 ∨ reg = ADIV5_MEM_AP_REG_BD3 then
    match coresight_read (ap_addr_2_tile (bd_addr st reg)).1
        (ap_addr_2_tile (bd_addr st reg)).2 ch with
    | none => none
    | some (rc, v, ch2) => some (rc, v, ap_track st rc, ch2)
  else if reg = ADIV5_MEM_AP_REG_DRW then
    match coresight_read (ap_addr_2_tile (drw_target st)).1
        (ap_addr_2_tile (drw_target st)).2 ch with
    | none => none
    | some (rc, v, ch2) => some (rc, v, ap_track (drw_inc_update st rc) rc, ch2)
  else some (ERROR_FAIL, none, ap_track st ERROR_FAIL, ch)

/-- `dmem_ap_q_write` (dmem.c lines 343-400).  The DRW case stores the
payload into the `ap_drw` shadow register before issuing the bus
transaction (line 382), which is why the `ap_drw` update appears
unconditionally in that branch. -/
def dmem_ap_q_write (adiv6 : Bool) (reg data : Nat) (st : DmemState)
    (ch : Channel) : Option (Int × DmemState × Channel) :=
  if adiv6 then some (ERROR_FAIL, st, ch)
  else if st.ap_bank ≠ 0 then
    some (ERROR_FAIL, { st with dmem_dap_retval := ERROR_FAIL }, ch)
  else if reg = ADIV5_MEM_AP_REG_CSW then
    some (ERROR_OK, { st with ap_csw := data }, ch)
  else if reg = ADIV5_MEM_AP_REG_TAR then
    some (ERROR_OK, { st with ap_tar := data, ap_tar_inc := 0 }, ch)
  else if reg = ADIV5_MEM_AP_REG_BD0 ∨ reg = ADIV5_MEM_AP_REG_BD1 ∨
      reg = ADIV5_MEM_AP_REG_BD2 ∨ reg = ADIV5_MEM_AP_REG_BD3 then
    match coresight_write (ap_addr_2_tile (bd_addr st reg)).1
        (ap_addr_2_tile (bd_addr st reg)).2 data ch with
    | none => none
    | some (rc, ch2) => some (rc, ap_track st rc, ch2)
  else if reg = ADIV5_MEM_AP_REG_DRW then
    match coresight_write (ap_addr_2_tile (drw_target st)).1
        (ap_addr_2_tile (drw_target st)).2 data ch with
    | none => none
    | some (rc, ch2) =>
        some (rc, ap_track (drw_inc_update { st with ap_drw := data } rc) rc, ch2)
  else some (EINVAL, ap_track st EINVAL, ch)

/-- `dmem_dp_run` (dmem.c lines 407-415): return the latched error code
and reset it to `ERROR_OK`. -/
def dmem_dp_run (st : DmemState) : Int × DmemState :=
  (st.dmem_dap_retval, { st with dmem_dap_retval := ERROR_OK })

/-- A queued AP operation on a non-ADIv6 DAP, used to state properties of
sequences of AP accesses uniformly over reads and writes. -/
inductive APOp where
  | rd (ap_num reg : Nat)
  | wr (reg data : Nat)

/-- Execute one `APOp`, keeping the returned status, the new shadow state
and the new channel. -/
def apOpRun (op : APOp) (st : DmemState) (ch : Channel) :
    Option (Int × DmemState × Channel) :=
  match op with
  | APOp.rd ap_num reg =>
    match dmem_ap_q_read false ap_num reg st ch with
    | none => none
    | some (rc, _, st2, ch2) => some (rc, st2, ch2)
  | APOp.wr reg data => dmem_ap_q_write false reg data st ch

/-- All-zero initial shadow state (dmem.c lines 86-91, 103: process-wide
statics start at zero, and the sticky error starts at `ERROR_OK`). -/
def dmemInit : DmemState :=
  { dp_ctrl_stat := 0, dp_id_code := 0, ap_sel := 0, ap_bank := 0,
    ap_csw := 0, ap_drw := 0, ap_tar := 0, ap_tar_inc := 0,
    dmem_dap_retval := ERROR_OK }

/-- A disconnected channel: the `dmem_read` / `dmem_write` function
pointers are not wired up. -/
def chanDisc : Channel := { connected := false, reads := [], writes := [] }

/-! ### Helper lemmas on error tracking -/

lemma ap_track_retval (st : DmemState) (rc : Int) :
    (ap_track st rc).dmem_dap_retval =
      if rc = ERROR_OK then st.dmem_dap_retval else rc := by
  unfold ap_track
  split_ifs <;> simp_all

lemma drw_inc_update_retval (st : DmemState) (rc : Int) :
    (drw_inc_update st rc).dmem_dap_retval = st.dmem_dap_retval := by
  unfold drw_inc_update
  split_ifs <;> rfl

/-- After any non-ADIv6 queued AP read that returns, the sticky error
field equals the returned status if it is a failure, and is untouched on
success. -/
lemma ap_read_retval (ap_num reg : Nat) (st : DmemState) (ch : Channel)
    (rc : Int) (v : Option Nat) (st2 : DmemState) (ch2 : Channel)
    (h : dmem_ap_q_read false ap_num reg st ch = some (rc, v, st2, ch2)) :
    st2.dmem_dap_retval = if rc = ERROR_OK then st.dmem_dap_retval else rc := by
  unfold dmem_ap_q_read at h
  rw [if_neg (by decide : ¬(false = true))] at h
  repeat' split at h
  all_goals simp only [Option.some.injEq, Prod.mk.injEq, reduceCtorEq] at h
  all_goals obtain ⟨h1, h2, h3, h4⟩ := h
  all_goals subst h1
  all_goals subst h3
  all_goals simp [ap_track_retval, drw_inc_update_retval, ERROR_OK, ERROR_FAIL]

/-- After any non-ADIv6 queued AP write that returns, the sticky error
field equals the returned status if it is a failure, and is untouched on
success. -/
lemma ap_write_retval (reg data : Nat) (st : DmemState) (ch : Channel)
    (rc : Int) (st2 : DmemState) (ch2 : Channel)
    (h : dmem_ap_q_write false reg data st ch = some (rc, st2, ch2)) :
    st2.dmem_dap_retval = if rc = ERROR_OK then st.dmem_dap_retval else rc := by
  unfold dmem_ap_q_write at h
  rw [if_neg (by decide : ¬(false = true))] at h
  repeat' split at h
  all_goals simp only [Option.some.injEq, Prod.mk.injEq, reduceCtorEq] at h
  all_goals obtain ⟨h1, h2, h3⟩ := h
  all_goals subst h1
  all_goals subst h2
  all_goals
    simp [ap_track_retval, drw_inc_update_retval, ERROR_OK, ERROR_FAIL, EINVAL]

lemma apOpRun_retval (op : APOp) (st : DmemState) (ch : Channel)
    (rc : Int) (st2 : DmemState) (ch2 : Channel)
    (h : apOpRun op st ch = some (rc, st2, ch2)) :
    st2.dmem_dap_retval = if rc = ERROR_OK then st.dmem_dap_retval else rc := by
  cases op with
  | rd ap_num reg =>
    simp only [apOpRun] at h
    rcases hr : dmem_ap_q_read false ap_num reg st ch with _ | ⟨rc3, v3, st3, ch3⟩
    · rw [hr] at h; cases h
    · rw [hr] at h
      simp only [Option.some.injEq, Prod.mk.injEq] at h
      obtain ⟨h1, h2, h3⟩ := h
      subst h1; subst h2; subst h3
      exact ap_read_retval _ _ _ _ _ v3 _ _ hr
  | wr reg data => exact ap_write_retval reg data st ch rc st2 ch2 h

/-! ### Claims C3, C4: sticky error tracking -/

/-- Claim C3 (amended): every queued AP read or write that reaches the
register-dispatch switch (including the non-zero-bank write rejection)
and returns a non-success status stores that status into the sticky error
flag; the ADIv6-rejection path, by contrast, returns `ERROR_FAIL` without
touching the flag (or any other state); and the run operation returns the
current sticky flag value and resets it to `ERROR_OK`. -/
theorem C3_sticky_error :
    (∀ ap_num reg st ch rc v st2 ch2,
      dmem_ap_q_read false ap_num reg st ch = some (rc, v, st2, ch2) →
      rc ≠ ERROR_OK → st2.dmem_dap_retval = rc) ∧
    (∀ reg data st ch rc st2 ch2,
      dmem_ap_q_write false reg data st ch = some (rc, st2, ch2) →
      rc ≠ ERROR_OK → st2.dmem_dap_retval = rc) ∧
    (∀ ap_num reg st ch,
      dmem_ap_q_read true ap_num reg st ch = some (ERROR_FAIL, none, st, ch)) ∧
    (∀ reg data st ch,
      dmem_ap_q_write true reg data st ch = some (ERROR_FAIL, st, ch)) ∧
    (∀ st, dmem_dp_run st =
      (st.dmem_dap_retval, { st with dmem_dap_retval := ERROR_OK })) := by
  refine ⟨?_, ?_, ?_, ?_, ?_⟩
  · intro ap_num reg st ch rc v st2 ch2 h hrc
    rw [ap_read_retval ap_num reg st ch rc v st2 ch2 h, if_neg hrc]
  · intro reg data st ch rc st2 ch2 h hrc
    rw [ap_write_retval reg data st ch rc st2 ch2 h, if_neg hrc]
  · intro ap_num reg st ch; rfl
  · intro reg data st ch; rfl
  · intro st; rfl

/-- Witness for C3: the failing-path conjunct applied to a concrete
unknown-register AP read (register 0x50) from the initial state: the
returned `ERROR_FAIL` lands in the sticky flag. -/
theorem C3_sticky_error_witness :
    ({ dmemInit with dmem_dap_retval := ERROR_FAIL }).dmem_dap_retval = ERROR_FAIL :=
  C3_sticky_error.1 0 0x50 dmemInit chanDisc ERROR_FAIL none
    { dmemInit with dmem_dap_retval := ERROR_FAIL } chanDisc (by decide) (by decide)

/-- Counterexample to claim C3 as stated: an AP read rejected on the
ADIv6 path returns the non-success status `ERROR_FAIL`, yet the resulting
state is unchanged — in particular the sticky error flag still holds
`ERROR_OK`, so the ADIv6-rejection failure is not stored. -/
theorem C3_counterexample :
    dmem_ap_q_read true 0 ADIV5_MEM_AP_REG_CSW dmemInit chanDisc =
      some (ERROR_FAIL, none, dmemInit, chanDisc) ∧
    dmemInit.dmem_dap_retval = ERROR_OK ∧ ERROR_FAIL ≠ ERROR_OK := by
  decide

/-- Claim C4 (amended): after a failing AP operation followed by a second
AP operation, run returns the earlier failure's code if the second
operation succeeds (success does not clear the sticky flag), and the
later failure's code if the second operation also fails. -/
theorem C4_last_error_wins :
    ∀ op1 op2 st ch e1 st1 ch1 rc2 st2 ch2,
      apOpRun op1 st ch = some (e1, st1, ch1) → e1 ≠ ERROR_OK →
      apOpRun op2 st1 ch1 = some (rc2, st2, ch2) →
      ((rc2 = ERROR_OK → (dmem_dp_run st2).1 = e1) ∧
       (rc2 ≠ ERROR_OK → (dmem_dp_run st2).1 = rc2)) := by
  intro op1 op2 st ch e1 st1 ch1 rc2 st2 ch2 h1 he1 h2
  have k1 := apOpRun_retval op1 st ch e1 st1 ch1 h1
  have k2 := apOpRun_retval op2 st1 ch1 rc2 st2 ch2 h2
  rw [if_neg he1] at k1
  constructor <;> intro hc <;> simp_all [dmem_dp_run]

/-- Intermediate state after a failing AP write of unknown register 0x40
from the initial state: the sticky flag latches `EINVAL`. -/
def dmemE : DmemState := { dmemInit with dmem_dap_retval := EINVAL }

/-- State after a subsequent successful CSW write of 5: the sticky flag
still holds `EINVAL`. -/
def dmemE2 : DmemState := { dmemE with ap_csw := 5 }

/-- Counterexample to claim C4 as stated: a failing AP write (unknown
register, status `EINVAL`) followed by a successful AP write (CSW)
followed by run yields `EINVAL`, not success — a successful operation
does not clear the sticky flag. -/
theorem C4_counterexample :
    dmem_ap_q_write false 0x40 0 dmemInit chanDisc = some (EINVAL, dmemE, chanDisc) ∧
    dmem_ap_q_write false ADIV5_MEM_AP_REG_CSW 5 dmemE chanDisc =
      some (ERROR_OK, dmemE2, chanDisc) ∧
    (dmem_dp_run dmemE2).1 = EINVAL ∧ EINVAL ≠ ERROR_OK := by
  decide

/-- Witness for C4: the amended theorem applied to the concrete failing
write followed by the concrete successful write. -/
theorem C4_last_error_wins_witness : (dmem_dp_run dmemE2).1 = EINVAL :=
  (C4_last_error_wins (APOp.wr 0x40 0) (APOp.wr ADIV5_MEM_AP_REG_CSW 5) dmemInit
    chanDisc EINVAL dmemE chanDisc ERROR_OK dmemE2 chanDisc
    (by decide) (by decide) (by decide)).1 rfl

/-! ### Claim C6: non-zero bank write rejection -/

/-- Claim C6: an AP write issued while the selected register bank is
non-zero (on a non-ADIv6 DAP) returns `ERROR_FAIL`, and the only state
change is the sticky error flag — CSW, TAR, DRW and the accumulated
increment are left unchanged, and nothing is issued on the channel. -/
theorem C6_bank_reject :
    ∀ st ch reg data, st.ap_bank ≠ 0 →
      dmem_ap_q_write false reg data st ch =
        some (ERROR_FAIL, { st with dmem_dap_retval := ERROR_FAIL }, ch) := by
  intro st ch reg data hb
  unfold dmem_ap_q_write
  rw [if_neg (by decide : ¬(false = true)), if_pos hb]

/-- Shadow state with bank 1 selected, for the C6 witness. -/
def dmemB : DmemState := { dmemInit with ap_bank := 1 }

/-- Witness for C6: a CSW write with bank 1 selected fails and leaves the
shadow registers unchanged. -/
theorem C6_bank_reject_witness :
    dmem_ap_q_write false ADIV5_MEM_AP_REG_CSW 7 dmemB chanDisc =
      some (ERROR_FAIL, { dmemB with dmem_dap_retval := ERROR_FAIL }, chanDisc) :=
  C6_bank_reject dmemB chanDisc ADIV5_MEM_AP_REG_CSW 7 (by decide)

/-! ### Claim C8: AP reads ignore the selected bank -/

/-- Claim C8: AP reads never check the selected register bank — for every
bank value `b`, reading CSW, CFG, BASE or IDR succeeds and returns the
same value as with bank 0 (the returned value does not mention `b`), while
an AP write with `b ≠ 0` is rejected with `ERROR_FAIL`. -/
theorem C8_reads_ignore_bank :
    ∀ (st : DmemState) (ch : Channel) (ap_num b : Nat),
      (dmem_ap_q_read false ap_num ADIV5_MEM_AP_REG_CSW { st with ap_bank := b } ch =
        some (ERROR_OK, some st.ap_csw, { st with ap_bank := b }, ch)) ∧
      (dmem_ap_q_read false ap_num ADIV5_MEM_AP_REG_CFG { st with ap_bank := b } ch =
        some (ERROR_OK, some 0, { st with ap_bank := b }, ch)) ∧
      (dmem_ap_q_read false ap_num ADIV5_MEM_AP_REG_BASE { st with ap_bank := b } ch =
        some (ERROR_OK, some RSH_CS_ROM_BASE, { st with ap_bank := b }, ch)) ∧
      (dmem_ap_q_read false ap_num ADIV5_AP_REG_IDR { st with ap_bank := b } ch =
        some (ERROR_OK, some (if ap_num = 0 then APB_AP_IDR else 0),
          { st with ap_bank := b }, ch)) ∧
      (∀ reg data, b ≠ 0 →
        dmem_ap_q_write false reg data { st with ap_bank := b } ch =
          some (ERROR_FAIL,
            { st with ap_bank := b, dmem_dap_retval := ERROR_FAIL }, ch)) := by
  intro st ch ap_num b
  refine ⟨rfl, rfl, rfl, rfl, ?_⟩
  intro reg data hb
  have hb2 : ({ st with ap_bank := b } : DmemState).ap_bank ≠ 0 := hb
  unfold dmem_ap_q_write
  rw [if_neg (by decide : ¬(false = true)), if_pos hb2]

/-- Witness for C8: with bank 3 selected, a TAR write is rejected (the
write-rejection conjunct applied at concrete inputs). -/
theorem C8_reads_ignore_bank_witness :
    dmem_ap_q_write false ADIV5_MEM_AP_REG_TAR 9 { dmemInit with ap_bank := 3 }
        chanDisc =
      some (ERROR_FAIL,
        { dmemInit with ap_bank := 3, dmem_dap_retval := ERROR_FAIL }, chanDisc) :=
  (C8_reads_ignore_bank dmemInit chanDisc 0 3).2.2.2.2 ADIV5_MEM_AP_REG_TAR 9
    (by decide)

/-! ### Claim C9: DRW write stores the payload before the bus transaction -/

/-- Claim C9: an AP write to DRW (non-ADIv6, bank 0) stores the payload
into the `ap_drw` shadow register regardless of the outcome of the
CoreSight transaction, so after the call the DRW shadow equals the
written data even when the transaction fails. -/
theorem C9_drw_write_not_atomic :
    ∀ st ch data rc st2 ch2, st.ap_bank = 0 →
      dmem_ap_q_write false ADIV5_MEM_AP_REG_DRW data st ch = some (rc, st2, ch2) →
      st2.ap_drw = data := by
  intro st ch data rc st2 ch2 hb h
  unfold dmem_ap_q_write at h
  rw [if_neg (by decide : ¬(false = true)), if_neg (by simp [hb]),
    if_neg (by decide : ¬(ADIV5_MEM_AP_REG_DRW = ADIV5_MEM_AP_REG_CSW)),
    if_neg (by decide : ¬(ADIV5_MEM_AP_REG_DRW = ADIV5_MEM_AP_REG_TAR)),
    if_neg (by decide : ¬(ADIV5_MEM_AP_REG_DRW = ADIV5_MEM_AP_REG_BD0 ∨
      ADIV5_MEM_AP_REG_DRW = ADIV5_MEM_AP_REG_BD1 ∨
      ADIV5_MEM_AP_REG_DRW = ADIV5_MEM_AP_REG_BD2 ∨
      ADIV5_MEM_AP_REG_DRW = ADIV5_MEM_AP_REG_BD3)),
    if_pos (rfl : ADIV5_MEM_AP_REG_DRW = ADIV5_MEM_AP_REG_DRW)] at h
  rcases hcw : coresight_write (ap_addr_2_tile (drw_target st)).1
      (ap_addr_2_tile (drw_target st)).2 data ch with _ | ⟨rc3, ch3⟩
  · rw [hcw] at h; cases h
  · rw [hcw] at h
    simp only [Option.some.injEq, Prod.mk.injEq] at h
    obtain ⟨h1, h2, h3⟩ := h
    subst h2
    unfold ap_track drw_inc_update
    split_ifs <;> rfl

/-- State after a DRW write of 0xDEADBEEF on a disconnected channel: the
payload is latched in the shadow even though the transaction failed. -/
def dmemD : DmemState :=
  { dmemInit with ap_drw := 0xDEADBEEF, dmem_dap_retval := ERROR_FAIL }

/-- Witness for C9: the DRW write of 0xDEADBEEF on the disconnected
channel fails with `ERROR_FAIL` yet leaves 0xDEADBEEF in the DRW shadow. -/
theorem C9_drw_write_not_atomic_witness :
    (dmem_ap_q_write false ADIV5_MEM_AP_REG_DRW 0xDEADBEEF dmemInit chanDisc =
      some (ERROR_FAIL, dmemD, chanDisc)) ∧ dmemD.ap_drw = 0xDEADBEEF :=
  ⟨by decide,
   C9_drw_write_not_atomic dmemInit chanDisc 0xDEADBEEF ERROR_FAIL dmemD chanDisc
     rfl (by decide)⟩

/-! ### Claim C7: protocol-engine polling -/

/-- Polling skips any number of successful reads that still have the GO
bit set. -/
lemma cs_poll_skip : ∀ (pre l : List (Int × Nat)),
    (∀ p ∈ pre, ¬ p.1 < 0 ∧ cs_get_go p.2 ≠ 0) →
    cs_poll (pre ++ l) = cs_poll l := by
  intro pre
  induction pre with
  | nil => intro l hp; rfl
  | cons hd tl ih =>
    intro l hp
    obtain ⟨rc, ctl⟩ := hd
    have h1 : ¬ rc < 0 := (hp (rc, ctl) (List.mem_cons_self _ _)).1
    have h2 : cs_get_go ctl ≠ 0 := (hp (rc, ctl) (List.mem_cons_self _ _)).2
    simp only [List.cons_append, cs_poll]
    rw [if_neg h1, if_pos h2]
    exact ih l (fun p hm => hp p (List.mem_cons_of_mem _ hm))

/-- Claim C7: for a device modelled as a sequence of channel read results,
the polling loop of `coresight_read` / `coresight_write` skips any number
of successful go-still-set reads, returns success (with the DATA field for
reads) as soon as a read yields a control word with GO clear, and returns
the channel's error code immediately — consuming nothing beyond the
failing read, for every continuation `rest` — if a channel read fails
mid-poll. -/
theorem C7_poll_terminates :
    ∀ (tile addr : Nat) (pre rest : List (Int × Nat)) (w : List Nat),
      (∀ p ∈ pre, ¬ p.1 < 0 ∧ cs_get_go p.2 ≠ 0) →
      (∀ rc ctl, ¬ rc < 0 → cs_get_go ctl = 0 →
        coresight_read tile addr ⟨true, pre ++ (rc, ctl) :: rest, w⟩ =
          some (ERROR_OK, some (cs_get_data ctl),
            ⟨true, rest, cs_read_ctl tile addr :: w⟩)) ∧
      (∀ e ctl, e < 0 →
        coresight_read tile addr ⟨true, pre ++ (e, ctl) :: rest, w⟩ =
          some (e, none, ⟨true, rest, cs_read_ctl tile addr :: w⟩)) ∧
      (∀ rc ctl d, ¬ rc < 0 → cs_get_go ctl = 0 →
        coresight_write tile addr d ⟨true, pre ++ (rc, ctl) :: rest, w⟩ =
          some (ERROR_OK, ⟨true, rest, cs_write_ctl tile addr d :: w⟩)) ∧
      (∀ e ctl d, e < 0 →
        coresight_write tile addr d ⟨true, pre ++ (e, ctl) :: rest, w⟩ =
          some (e, ⟨true, rest, cs_write_ctl tile addr d :: w⟩)) := by
  intro tile addr pre rest w hp
  refine ⟨?_, ?_, ?_, ?_⟩
  · intro rc ctl h1 h2
    have hpoll : cs_poll (pre ++ (rc, ctl) :: rest) = some (Except.ok ctl, rest) := by
      rw [cs_poll_skip pre _ hp]
      simp only [cs_poll]
      rw [if_neg h1, if_neg (fun k => k h2)]
    simp [coresight_read, hpoll]
  · intro e ctl he
    have hpoll : cs_poll (pre ++ (e, ctl) :: rest) = some (Except.error e, rest) := by
      rw [cs_poll_skip pre _ hp]
      simp only [cs_poll]
      rw [if_pos he]
    simp [coresight_read, hpoll]
  · intro rc ctl d h1 h2
    have hpoll : cs_poll (pre ++ (rc, ctl) :: rest) = some (Except.ok ctl, rest) := by
      rw [cs_poll_skip pre _ hp]
      simp only [cs_poll]
      rw [if_neg h1, if_neg (fun k => k h2)]
    simp [coresight_write, hpoll]
  · intro e ctl d he
    have hpoll : cs_poll (pre ++ (e, ctl) :: rest) = some (Except.error e, rest) := by
      rw [cs_poll_skip pre _ hp]
      simp only [cs_poll]
      rw [if_pos he]
    simp [coresight_write, hpoll]

/-- Witness for C7: a concrete device that leaves GO set on the first
read and clears it on the second: the read terminates with success and
the DATA field of the final control word. -/
theorem C7_poll_terminates_witness :
    coresight_read 0 0x100 ⟨true, [(0, 1), (0, 0xDEAD00000000)], []⟩ =
      some (ERROR_OK, some (cs_get_data 0xDEAD00000000),
        ⟨true, [], [cs_read_ctl 0 0x100]⟩) :=
  (C7_poll_terminates 0 0x100 [(0, 1)] [] [] (by decide)).1 0 0xDEAD00000000
    (by decide) (by decide)

/-! ### Claim C5: TAR write, DRW targeting and auto-increment -/

/-- The DRW branch of `dmem_ap_q_read`, unfolded. -/
lemma ap_read_drw_eq (ap_num : Nat) (st : DmemState) (ch : Channel) :
    dmem_ap_q_read false ap_num ADIV5_MEM_AP_REG_DRW st ch =
      match coresight_read (ap_addr_2_tile (drw_target st)).1
          (ap_addr_2_tile (drw_target st)).2 ch with
      | none => none
      | some (rc, v, ch2) =>
          some (rc, v, ap_track (drw_inc_update st rc) rc, ch2) := rfl

/-- The DRW branch of `dmem_ap_q_write` when bank 0 is selected,
unfolded. -/
lemma ap_write_drw_eq (data : Nat) (st : DmemState) (ch : Channel)
    (hb : st.ap_bank = 0) :
    dmem_ap_q_write false ADIV5_MEM_AP_REG_DRW data st ch =
      match coresight_write (ap_addr_2_tile (drw_target st)).1
          (ap_addr_2_tile (drw_target st)).2 data ch with
      | none => none
      | some (rc, ch2) =>
          some (rc, ap_track (drw_inc_update { st with ap_drw := data } rc) rc, ch2) := by
  unfold dmem_ap_q_write
  rw [if_neg (by decide : ¬(false = true)), if_neg (by simp [hb]),
    if_neg (by decide : ¬(ADIV5_MEM_AP_REG_DRW = ADIV5_MEM_AP_REG_CSW)),
    if_neg (by decide : ¬(ADIV5_MEM_AP_REG_DRW = ADIV5_MEM_AP_REG_TAR)),
    if_neg (by decide : ¬(ADIV5_MEM_AP_REG_DRW = ADIV5_MEM_AP_REG_BD0 ∨
      ADIV5_MEM_AP_REG_DRW = ADIV5_MEM_AP_REG_BD1 ∨
      ADIV5_MEM_AP_REG_DRW = ADIV5_MEM_AP_REG_BD2 ∨
      ADIV5_MEM_AP_REG_DRW = ADIV5_MEM_AP_REG_BD3)),
    if_pos (rfl : ADIV5_MEM_AP_REG_DRW = ADIV5_MEM_AP_REG_DRW)]

/-- Effect of one DRW read on the shadow state: CSW and TAR are
preserved, and the accumulated increment advances by `(csw & 3) * 2`
exactly when the read succeeded and the CSW auto-increment-enable bits
are set. -/
lemma ap_read_drw_step (ap_num : Nat) (st : DmemState) (ch : Channel)
    (rc : Int) (v : Option Nat) (st2 : DmemState) (ch2 : Channel)
    (h : dmem_ap_q_read false ap_num ADIV5_MEM_AP_REG_DRW st ch =
      some (rc, v, st2, ch2)) :
    st2.ap_csw = st.ap_csw ∧ st2.ap_tar = st.ap_tar ∧
      st2.ap_tar_inc =
        (if rc = ERROR_OK ∧ st.ap_csw &&& CSW_ADDRINC_MASK ≠ 0 then
          (st.ap_tar_inc + (st.ap_csw &&& 0x03) * 2) % 0x100000000
        else st.ap_tar_inc) := by
  rw [ap_read_drw_eq] at h
  rcases hcr : coresight_read (ap_addr_2_tile (drw_target st)).1
      (ap_addr_2_tile (drw_target st)).2 ch with _ | ⟨rc3, v3, ch3⟩
  · rw [hcr] at h; cases h
  · rw [hcr] at h
    simp only [Option.some.injEq, Prod.mk.injEq] at h
    obtain ⟨h1, h2, h3, h4⟩ := h
    subst h1; subst h3
    unfold ap_track drw_inc_update
    split_ifs <;> simp_all

/-- Effect of one DRW write on the shadow state: same increment behaviour
as the read. -/
lemma ap_write_drw_step (data : Nat) (st : DmemState) (ch : Channel)
    (rc : Int) (st2 : DmemState) (ch2 : Channel) (hb : st.ap_bank = 0)
    (h : dmem_ap_q_write false ADIV5_MEM_AP_REG_DRW data st ch =
      some (rc, st2, ch2)) :
    st2.ap_csw = st.ap_csw ∧ st2.ap_tar = st.ap_tar ∧
      st2.ap_tar_inc =
        (if rc = ERROR_OK ∧ st.ap_csw &&& CSW_ADDRINC_MASK ≠ 0 then
          (st.ap_tar_inc + (st.ap_csw &&& 0x03) * 2) % 0x100000000
        else st.ap_tar_inc) := by
  rw [ap_write_drw_eq data st ch hb] at h
  rcases hcw : coresight_write (ap_addr_2_tile (drw_target st)).1
      (ap_addr_2_tile (drw_target st)).2 data ch with _ | ⟨rc3, ch3⟩
  · rw [hcw] at h; cases h
  · rw [hcw] at h
    simp only [Option.some.injEq, Prod.mk.injEq] at h
    obtain ⟨h1, h2, h3⟩ := h
    subst h1; subst h2
    unfold ap_track drw_inc_update
    split_ifs <;> simp_all

/-- A successful `coresight_read` on a connected channel logs exactly one
read control word. -/
lemma coresight_read_log (tile addr : Nat) (ch : Channel) (rc : Int)
    (v : Option Nat) (ch2 : Channel) (hc : ch.connected = true)
    (h : coresight_read tile addr ch = some (rc, v, ch2)) :
    ch2.writes = cs_read_ctl tile addr :: ch.writes := by
  unfold coresight_read at h
  rw [if_neg (by simp [hc])] at h
  rcases hp : cs_poll ch.reads with _ | ⟨e | c, rest⟩
  · rw [hp] at h; cases h
  · rw [hp] at h
    simp only [Option.some.injEq, Prod.mk.injEq] at h
    obtain ⟨h1, h2, h3⟩ := h
    subst h3; rfl
  · rw [hp] at h
    simp only [Option.some.injEq, Prod.mk.injEq] at h
    obtain ⟨h1, h2, h3⟩ := h
    subst h3; rfl

/-- A returning `coresight_write` on a connected channel logs exactly one
write control word. -/
lemma coresight_write_log (tile addr d : Nat) (ch : Channel) (rc : Int)
    (ch2 : Channel) (hc : ch.connected = true)
    (h : coresight_write tile addr d ch = some (rc, ch2)) :
    ch2.writes = cs_write_ctl tile addr d :: ch.writes := by
  unfold coresight_write at h
  rw [if_neg (by simp [hc])] at h
  rcases hp : cs_poll ch.reads with _ | ⟨e | c, rest⟩
  · rw [hp] at h; cases h
  · rw [hp] at h
    simp only [Option.some.injEq, Prod.mk.injEq] at h
    obtain ⟨h1, h2⟩ := h
    subst h2; rfl
  · rw [hp] at h
    simp only [Option.some.injEq, Prod.mk.injEq] at h
    obtain ⟨h1, h2⟩ := h
    subst h2; rfl

/-- A run of `n` successive successful DRW reads (each returning
`ERROR_OK`), from `(st, ch)` to `(stF, chF)`. -/
def drwReadOkSeq : Nat → DmemState → Channel → DmemState → Channel → Prop
  | 0, st, ch, stF, chF => stF = st ∧ chF = ch
  | n + 1, st, ch, stF, chF =>
    ∃ v st1 ch1,
      dmem_ap_q_read false 0 ADIV5_MEM_AP_REG_DRW st ch =
        some (ERROR_OK, v, st1, ch1) ∧
      drwReadOkSeq n st1 ch1 stF chF

/-- Over a run of successful DRW reads with auto-increment enabled and
increment field 1, the accumulated increment advances by 2 per access and
CSW is preserved. -/
lemma drwReadOkSeq_inc : ∀ (n : Nat) (st stF : DmemState) (ch chF : Channel),
    drwReadOkSeq n st ch stF chF →
    st.ap_csw &&& CSW_ADDRINC_MASK ≠ 0 → st.ap_csw &&& 0x03 = 1 →
    st.ap_tar_inc < 0x100000000 →
    stF.ap_tar_inc = (st.ap_tar_inc + n * 2) % 0x100000000 ∧
      stF.ap_csw = st.ap_csw := by
  intro n
  induction n with
  | zero =>
    intro st stF ch chF h h1 h2 hlt
    obtain ⟨hs, hc⟩ := h
    subst hs
    exact ⟨by omega, rfl⟩
  | succ n ih =>
    intro st stF ch chF h h1 h2 hlt
    obtain ⟨v, st1, ch1, hstep, hrest⟩ := h
    obtain ⟨hcsw, htar, hinc⟩ := ap_read_drw_step 0 st ch ERROR_OK v st1 ch1 hstep
    rw [if_pos ⟨rfl, h1⟩, h2] at hinc
    obtain ⟨ihinc, ihcsw⟩ := ih st1 stF ch1 chF hrest
      (by rw [hcsw]; exact h1) (by rw [hcsw]; exact h2)
      (by rw [hinc]; exact Nat.mod_lt _ (by norm_num))
    refine ⟨?_, by rw [ihcsw, hcsw]⟩
    rw [ihinc, hinc]
    omega

/-- Claim C5: a TAR write stores the written address and zeroes the
accumulated auto-increment; each DRW access (read or write) issues a
CoreSight transaction for the flat address `(TAR & ~0x3) + increment`
(the control word logged on the channel encodes exactly the translation
of that address); on success with the CSW auto-increment-enable bits set
the increment advances by `(csw & 3) * 2` bytes and a failing access
leaves it unchanged; and `n` successive successful DRW reads with
increment field 1 advance the increment by `n * 2` bytes. -/
theorem C5_tar_drw_autoincrement :
    (∀ (st : DmemState) (ch : Channel) (data : Nat), st.ap_bank = 0 →
      dmem_ap_q_write false ADIV5_MEM_AP_REG_TAR data st ch =
        some (ERROR_OK, { st with ap_tar := data, ap_tar_inc := 0 }, ch)) ∧
    (∀ (st : DmemState) (ch : Channel) (ap_num : Nat) (rc : Int)
        (v : Option Nat) (st2 : DmemState) (ch2 : Channel),
      ch.connected = true →
      dmem_ap_q_read false ap_num ADIV5_MEM_AP_REG_DRW st ch =
        some (rc, v, st2, ch2) →
      ch2.writes = cs_read_ctl (ap_addr_2_tile (drw_target st)).1
        (ap_addr_2_tile (drw_target st)).2 :: ch.writes) ∧
    (∀ (st : DmemState) (ch : Channel) (data : Nat) (rc : Int)
        (st2 : DmemState) (ch2 : Channel),
      ch.connected = true → st.ap_bank = 0 →
      dmem_ap_q_write false ADIV5_MEM_AP_REG_DRW data st ch =
        some (rc, st2, ch2) →
      ch2.writes = cs_write_ctl (ap_addr_2_tile (drw_target st)).1
        (ap_addr_2_tile (drw_target st)).2 data :: ch.writes) ∧
    (∀ (st : DmemState) (ch : Channel) (ap_num : Nat) (rc : Int)
        (v : Option Nat) (st2 : DmemState) (ch2 : Channel),
      dmem_ap_q_read false ap_num ADIV5_MEM_AP_REG_DRW st ch =
        some (rc, v, st2, ch2) →
      st2.ap_tar_inc =
        (if rc = ERROR_OK ∧ st.ap_csw &&& CSW_ADDRINC_MASK ≠ 0 then
          (st.ap_tar_inc + (st.ap_csw &&& 0x03) * 2) % 0x100000000
        else st.ap_tar_inc)) ∧
    (∀ (st : DmemState) (ch : Channel) (data : Nat) (rc : Int)
        (st2 : DmemState) (ch2 : Channel), st.ap_bank = 0 →
      dmem_ap_q_write false ADIV5_MEM_AP_REG_DRW data st ch =
        some (rc, st2, ch2) →
      st2.ap_tar_inc =
        (if rc = ERROR_OK ∧ st.ap_csw &&& CSW_ADDRINC_MASK ≠ 0 then
          (st.ap_tar_inc + (st.ap_csw &&& 0x03) * 2) % 0x100000000
        else st.ap_tar_inc)) ∧
    (∀ (n : Nat) (st stF : DmemState) (ch chF : Channel),
      drwReadOkSeq n st ch stF chF →
      st.ap_csw &&& CSW_ADDRINC_MASK ≠ 0 → st.ap_csw &&& 0x03 = 1 →
      st.ap_tar_inc < 0x100000000 →
      stF.ap_tar_inc = (st.ap_tar_inc + n * 2) % 0x100000000) := by
  refine ⟨?_, ?_, ?_, ?_, ?_, ?_⟩
  · intro st ch data hb
    unfold dmem_ap_q_write
    rw [if_neg (by decide : ¬(false = true)), if_neg (by simp [hb]),
      if_neg (by decide : ¬(ADIV5_MEM_AP_REG_TAR = ADIV5_MEM_AP_REG_CSW)),
      if_pos (rfl : ADIV5_MEM_AP_REG_TAR = ADIV5_MEM_AP_REG_TAR)]
  · intro st ch ap_num rc v st2 ch2 hc h
    rw [ap_read_drw_eq] at h
    rcases hcr : coresight_read (ap_addr_2_tile (drw_target st)).1
        (ap_addr_2_tile (drw_target st)).2 ch with _ | ⟨rc3, v3, ch3⟩
    · rw [hcr] at h; cases h
    · rw [hcr] at h
      simp only [Option.some.injEq, Prod.mk.injEq] at h
      obtain ⟨h1, h2, h3, h4⟩ := h
      subst h4
      exact coresight_read_log _ _ ch rc3 v3 ch3 hc hcr
  · intro st ch data rc st2 ch2 hc hb h
    rw [ap_write_drw_eq data st ch hb] at h
    rcases hcw : coresight_write (ap_addr_2_tile (drw_target st)).1
        (ap_addr_2_tile (drw_target st)).2 data ch with _ | ⟨rc3, ch3⟩
    · rw [hcw] at h; cases h
    · rw [hcw] at h
      simp only [Option.some.injEq, Prod.mk.injEq] at h
      obtain ⟨h1, h2, h3⟩ := h
      subst h3
      exact coresight_write_log _ _ data ch rc3 ch3 hc hcw
  · intro st ch ap_num rc v st2 ch2 h
    exact (ap_read_drw_step ap_num st ch rc v st2 ch2 h).2.2
  · intro st ch data rc st2 ch2 hb h
    exact (ap_write_drw_step data st ch rc st2 ch2 hb h).2.2
  · intro n st stF ch chF h h1 h2 hlt
    exact (drwReadOkSeq_inc n st stF ch chF h h1 h2 hlt).1

/-- Shadow state with CSW auto-increment enabled and increment field 1,
for the C5 witness. -/
def dmemC : DmemState := { dmemInit with ap_csw := 0x31 }

/-- A connected channel whose device immediately completes one
transaction (one read with GO clear). -/
def chanC : Channel := { connected := true, reads := [(0, 0)], writes := [] }

/-- `dmemC` after one successful DRW read: the increment advanced to 2. -/
def dmemC1 : DmemState := { dmemC with ap_tar_inc := 2 }

/-- `chanC` after one successful DRW read: the read control word was
issued and the device read was consumed. -/
def chanC1 : Channel :=
  { connected := true, reads := [],
    writes := [cs_read_ctl (ap_addr_2_tile (drw_target dmemC)).1
      (ap_addr_2_tile (drw_target dmemC)).2] }

/-- Witness for C5: the n-fold conjunct applied to one concrete
successful DRW read with increment field 1: the increment advances by
`1 * 2`. -/
theorem C5_tar_drw_autoincrement_witness :
    dmemC1.ap_tar_inc = (dmemC.ap_tar_inc + 1 * 2) % 0x100000000 :=
  C5_tar_drw_autoincrement.2.2.2.2.2 1 dmemC dmemC1 chanC chanC1
    ⟨some (cs_get_data 0), dmemC1, chanC1, by decide, rfl, rfl⟩
    (by decide) (by decide) (by decide)

/-! ### Claim C10: DP read with a NULL data pointer -/

/-- Claim C10: a queued DP read called with a NULL output-data pointer
returns `ERROR_OK` immediately, stores nothing through the pointer, and
leaves the shadow state unchanged (it never touches the channel at all —
`dmem_dp_q_read` does not take the channel as an input). -/
theorem C10_dp_read_null :
    ∀ reg st, dmem_dp_q_read true reg st = (ERROR_OK, none, st) := by
  intro reg st
  rfl

end Dmem
